import Mathlib

/-!
Verification of the remote-tool-adapter core of `app.py`: the
`McpServerClient` class (HTTP request construction, response mapping for
`list_branches`) and the startup secrets check.  Python values flowing
through the adapter are modelled by a `Json` type, and the Python-level
operations the code uses (truthiness, `in`, subscripting, iteration,
`json.dumps`) are translated operation by operation.
-/

mutual
/-- JSON values as Python's `json` module produces them (`dict`, `list`,
`str`, `int`, `bool`, `None`).  Numeric literals are modelled as
integers.  Lists and objects are separate inductives so that all
recursion over values is structural. -/
inductive Json where
  | null : Json
  | bool : Bool → Json
  | num : Int → Json
  | str : String → Json
  | arr : JList → Json
  | obj : JObj → Json
/-- A JSON array's elements. -/
inductive JList where
  | nil : JList
  | cons : Json → JList → JList
/-- A JSON object's fields, in insertion order (Python dicts preserve
insertion order; keys are unique in any dict produced by `json.loads`). -/
inductive JObj where
  | nil : JObj
  | cons : String → Json → JObj → JObj
end

/-- The elements of a JSON array as an ordinary list. -/
def JList.toList : JList → List Json
  | JList.nil => []
  | JList.cons x xs => x :: JList.toList xs

/-- The fields of a JSON object as an ordinary association list. -/
def JObj.toList : JObj → List (String × Json)
  | JObj.nil => []
  | JObj.cons k v rest => (k, v) :: JObj.toList rest

/-- Build a JSON array from a list. -/
def jarr (xs : List Json) : Json := Json.arr (xs.foldr JList.cons JList.nil)

/-- Build a JSON object from an association list. -/
def jobj (fs : List (String × Json)) : Json :=
  Json.obj (fs.foldr (fun kv rest => JObj.cons kv.1 kv.2 rest) JObj.nil)

/-- Dictionary key lookup (first, hence only, occurrence). -/
def JObj.lookup (o : JObj) (key : String) : Option Json :=
  (JObj.toList o).lookup key

/-- Whether a JSON object has no fields. -/
def JObj.isEmpty : JObj → Bool
  | JObj.nil => true
  | JObj.cons _ _ _ => false

/-- Whether a JSON array has no elements. -/
def JList.isEmpty : JList → Bool
  | JList.nil => true
  | JList.cons _ _ => false

/-- A single-quote character as a string (used by Python error messages
and `repr`). -/
def singleQuote : String := String.singleton (Char.ofNat 39)

/-- Wrap a string in single quotes, as CPython error messages do. -/
def pyQuoted (s : String) : String := singleQuote ++ s ++ singleQuote

/-- Whether `needle` occurs as a contiguous run inside `hay` (Python
substring membership `needle in hay`). -/
def charsContain (needle : List Char) : List Char → Bool
  | [] => needle.isEmpty
  | c :: rest => needle.isPrefixOf (c :: rest) || charsContain needle rest

/-- The Python type name of a modelled value, as it appears in CPython
error messages. -/
def pyTypeName : Json → String
  | Json.null => "NoneType"
  | Json.bool _ => "bool"
  | Json.num _ => "int"
  | Json.str _ => "str"
  | Json.arr _ => "list"
  | Json.obj _ => "dict"

/-- Python truthiness of a value (`if result:`): `None`, `False`, `0`,
`""`, `[]` and `\x7b\x7d` are falsy. -/
def pyTruthy : Json → Bool
  | Json.null => false
  | Json.bool b => b
  | Json.num n => decide (n ≠ 0)
  | Json.str s => !s.isEmpty
  | Json.arr xs => !xs.isEmpty
  | Json.obj fs => !fs.isEmpty

/-- Python membership test `key in container` for a string key.  On a
`dict` it is key lookup, on a `list` element equality, on a `str` a
substring test; other types raise `TypeError` (modelled as `.error` with
the CPython message). -/
def pyContains (container : Json) (key : String) : Except String Bool :=
  match container with
  | Json.obj fields => Except.ok (fields.lookup key).isSome
  | Json.arr xs => Except.ok ((JList.toList xs).any (fun x =>
      match x with
      | Json.str s => s == key
      | _ => false))
  | Json.str s => Except.ok (charsContain key.toList s.toList)
  | other => Except.error ("argument of type " ++ pyQuoted (pyTypeName other) ++ " is not iterable")

/-- Python subscripting `container[key]` for a string key.  `dict` lookup
raises `KeyError` (whose `str` is the `repr` of the key) when absent;
`list` and `str` reject string indices; other types are not
subscriptable. -/
def pyIndexStr (container : Json) (key : String) : Except String Json :=
  match container with
  | Json.obj fields =>
    match fields.lookup key with
    | some v => Except.ok v
    | none => Except.error (pyQuoted key)
  | Json.arr _ => Except.error "list indices must be integers or slices, not str"
  | Json.str _ => Except.error ("string indices must be integers, not " ++ pyQuoted "str")
  | other => Except.error (pyQuoted (pyTypeName other) ++ " object is not subscriptable")

/-- The list comprehension `[b["name"] for b in bs]` over an explicit
list of iterates: evaluates left to right, stopping at the first
exception. -/
def mapNames : List Json → Except String (List Json)
  | [] => Except.ok []
  | b :: bs =>
    match pyIndexStr b "name" with
    | Except.error e => Except.error e
    | Except.ok v =>
      match mapNames bs with
      | Except.error e => Except.error e
      | Except.ok vs => Except.ok (v :: vs)

/-- The iteration of `[b["name"] for b in branches]` (app.py line 42): a
`list` iterates its elements, a `dict` its keys, a `str` its characters;
other types raise `TypeError`. -/
def pyIterNames : Json → Except String (List Json)
  | Json.arr xs => mapNames (JList.toList xs)
  | Json.obj fields => mapNames ((JObj.toList fields).map (fun kv => Json.str kv.1))
  | Json.str s => mapNames (s.toList.map (fun ch => Json.str (String.singleton ch)))
  | other => Except.error (pyQuoted (pyTypeName other) ++ " object is not iterable")

/-- A branch entry on which `b["name"]` succeeds: a `dict` bearing a
`"name"` key. -/
def isNamedObj : Json → Bool
  | Json.obj bf => (bf.lookup "name").isSome
  | _ => false

/-- A `branches` value shaped as the happy path expects: a sequence of
objects each bearing a `"name"` field. -/
def isNamedSeq : Json → Bool
  | Json.arr xs => (JList.toList xs).all isNamedObj
  | _ => false

/-- The `"name"` field of a branch entry (spec-side description of what
line 42 extracts; `Json.null` as a dummy for non-conforming entries). -/
def nameOf : Json → Json
  | Json.obj bf => (bf.lookup "name").getD Json.null
  | _ => Json.null

/-- The ordered sequence of `"name"` fields of a branch list. -/
def namesOf (bs : List Json) : List Json := bs.map nameOf

/-- One hexadecimal digit, lower case. -/
def hexDigitCh (n : Nat) : Char :=
  Char.ofNat (if n < 10 then 48 + n else 97 + (n - 10))

/-- Four-digit lower-case hexadecimal rendering (for `\uXXXX` escapes). -/
def hex4 (n : Nat) : String :=
  String.mk [hexDigitCh (n / 4096 % 16), hexDigitCh (n / 256 % 16),
             hexDigitCh (n / 16 % 16), hexDigitCh (n % 16)]

/-- Two-digit lower-case hexadecimal rendering (for `\xXX` escapes). -/
def hex2 (n : Nat) : String :=
  String.mk [hexDigitCh (n / 16 % 16), hexDigitCh (n % 16)]

/-- How `json.dumps` (default `ensure_ascii=True`) escapes one character
of a string: the named two-character escapes, `\uXXXX` (with surrogate
pairs beyond the BMP) for characters outside `0x20`–`0x7e`, and the
character itself otherwise. -/
def escChar (c : Char) : String :=
  let n := c.toNat
  if n == 34 then "\\\""
  else if n == 92 then "\\\\"
  else if n == 10 then "\\n"
  else if n == 13 then "\\r"
  else if n == 9 then "\\t"
  else if n == 8 then "\\b"
  else if n == 12 then "\\f"
  else if n < 32 || n > 126 then
    if n < 65536 then "\\u" ++ hex4 n
    else "\\u" ++ hex4 (55296 + (n - 65536) / 1024) ++ "\\u" ++ hex4 (56320 + (n - 65536) % 1024)
  else String.singleton c

/-- A JSON string literal as `json.dumps` renders it. -/
def jsonQuote (s : String) : String :=
  "\"" ++ String.join (s.toList.map escChar) ++ "\""

/-- `lvl`-many two-space units, the indentation `json.dumps(_, indent=2)`
puts before an item nested `lvl` levels deep. -/
def indentSp (lvl : Nat) : String := String.join (List.replicate lvl "  ")

mutual
/-- `json.dumps(j, indent=2)` (app.py lines 43 and 45), for a value
nested at indentation level `lvl`. -/
def dumps : Json → Nat → String
  | Json.null, _ => "null"
  | Json.bool true, _ => "true"
  | Json.bool false, _ => "false"
  | Json.num n, _ => toString n
  | Json.str s, _ => jsonQuote s
  | Json.arr JList.nil, _ => "[]"
  | Json.arr (JList.cons x xs), lvl =>
    "[\n" ++ indentSp (lvl + 1) ++
      String.intercalate (",\n" ++ indentSp (lvl + 1)) (dumpsItems (JList.cons x xs) (lvl + 1)) ++
      "\n" ++ indentSp lvl ++ "]"
  | Json.obj JObj.nil, _ => "\x7b\x7d"
  | Json.obj (JObj.cons k v fs), lvl =>
    "\x7b\n" ++ indentSp (lvl + 1) ++
      String.intercalate (",\n" ++ indentSp (lvl + 1)) (dumpsFields (JObj.cons k v fs) (lvl + 1)) ++
      "\n" ++ indentSp lvl ++ "\x7d"
/-- The rendered items of an array, each at level `lvl`. -/
def dumpsItems : JList → Nat → List String
  | JList.nil, _ => []
  | JList.cons x xs, lvl => dumps x lvl :: dumpsItems xs lvl
/-- The rendered `"key": value` entries of an object, each at level
`lvl`. -/
def dumpsFields : JObj → Nat → List String
  | JObj.nil, _ => []
  | JObj.cons k v fs, lvl => (jsonQuote k ++ ": " ++ dumps v lvl) :: dumpsFields fs lvl
end

/-- Python `repr` of a string: quote choice and the escapes relevant to
the values handled here (unprintable non-ASCII simplified to the
printable-kept rule). -/
def pyReprStr (s : String) : String :=
  let hasSingle := s.toList.any (fun c => c.toNat == 39)
  let hasDouble := s.toList.any (fun c => c.toNat == 34)
  let q : Nat := if hasSingle && !hasDouble then 34 else 39
  String.singleton (Char.ofNat q) ++
    String.join (s.toList.map (fun c =>
      let n := c.toNat
      if n == 92 then "\\\\"
      else if n == q then "\\" ++ String.singleton (Char.ofNat q)
      else if n == 10 then "\\n"
      else if n == 13 then "\\r"
      else if n == 9 then "\\t"
      else if n < 32 || n == 127 then "\\x" ++ hex2 n
      else String.singleton c)) ++
    String.singleton (Char.ofNat q)

mutual
/-- Python `str`/`repr` of a (JSON-shaped) Python value, as interpolated
into the `st.info` notice on app.py line 24. -/
def pyRepr : Json → String
  | Json.null => "None"
  | Json.bool true => "True"
  | Json.bool false => "False"
  | Json.num n => toString n
  | Json.str s => pyReprStr s
  | Json.arr xs => "[" ++ String.intercalate ", " (pyReprItems xs) ++ "]"
  | Json.obj fs => "\x7b" ++ String.intercalate ", " (pyReprFields fs) ++ "\x7d"
/-- `repr` of each element of a Python list. -/
def pyReprItems : JList → List String
  | JList.nil => []
  | JList.cons x xs => pyRepr x :: pyReprItems xs
/-- `repr` of each `key: value` entry of a Python dict. -/
def pyReprFields : JObj → List String
  | JObj.nil => []
  | JObj.cons k v fs => (pyReprStr k ++ ": " ++ pyRepr v) :: pyReprFields fs
end

/-- An outbound HTTP request as `requests.post(url, headers=..., json=...)`
issues it (app.py line 26): method, URL, header list, JSON body. -/
structure Request where
  method : String
  url : String
  headers : List (String × String)
  jsonBody : Json

/-- The observable outcome of running a piece of the app: the HTTP
requests it issued, the Streamlit messages it displayed (`st.info` /
`st.error`), and its value. -/
structure CallEffects (α : Type) where
  requests : List Request
  displayed : List String
  value : α

/-- The environment's answer to the single HTTP POST: either a response
(status, reason phrase, body text, and the outcome of `response.json()` —
`.error` when the body text is not valid JSON) or a transport-level
failure (connection refused, timeout, ...) whose `str` is `cause`. -/
inductive HttpResponse where
  | reply (status : Nat) (reason : String) (bodyText : String) (body : Except String Json)
  | transport (cause : String)

/-- `Response.raise_for_status()` of the `requests` library: returns the
`str` of the `HTTPError` raised for a 4xx/5xx status, `none` for any
other status. -/
def raiseForStatus (status : Nat) (reason url : String) : Option String :=
  if 400 ≤ status ∧ status < 500 then
    some (toString status ++ " Client Error: " ++ reason ++ " for url: " ++ url)
  else if 500 ≤ status ∧ status < 600 then
    some (toString status ++ " Server Error: " ++ reason ++ " for url: " ++ url)
  else none

/-- app.py line 10. -/
def REMOTE_MCP_SERVER_URL : String := "https://api.githubcopilot.com/mcp/"

/-- The `McpServerClient` class (app.py lines 13–20): its only state is
the GitHub PAT baked into the headers at construction time. -/
structure McpServerClient where
  github_pat : String

/-- The headers built in `__init__` (app.py lines 15–19). -/
def McpServerClient.headers (c : McpServerClient) : List (String × String) :=
  [("Authorization", "Bearer " ++ c.github_pat),
   ("Content-Type", "application/json"),
   ("Accept", "application/json")]

/-- `self.base_url` (app.py line 20). -/
def McpServerClient.base_url (_ : McpServerClient) : String := REMOTE_MCP_SERVER_URL

/-- `_call_mcp_tool` (app.py lines 22–34) run against the environment's
response `resp`: displays the pre-call notice, issues exactly one POST,
and either returns the parsed JSON (`.ok`) or displays an error and
re-raises (`.error e`, `e` being the `str` of the exception the caller
will see).  The requests and displayed messages are placed outside the
response dispatch so that each projection reduces independently. -/
def McpServerClient.call_mcp_tool (c : McpServerClient) (tool_name : String) (payload : Json)
    (resp : HttpResponse) : CallEffects (Except String Json) :=
  ⟨[⟨"POST", c.base_url ++ "api/v1/tools/" ++ tool_name ++ "/invoke", c.headers, payload⟩],
   ("Calling MCP tool: " ++ tool_name ++ " with payload: " ++ pyRepr payload) ::
     (match resp with
      | HttpResponse.transport cause => ["Other error occurred: " ++ cause]
      | HttpResponse.reply status reason text body =>
        match raiseForStatus status reason (c.base_url ++ "api/v1/tools/" ++ tool_name ++ "/invoke") with
        | some m => ["HTTP error occurred: " ++ m ++ " - Response: " ++ text]
        | none =>
          match body with
          | Except.ok _ => []
          | Except.error cause => ["Other error occurred: " ++ cause]),
   (match resp with
    | HttpResponse.transport cause => Except.error cause
    | HttpResponse.reply status reason _ body =>
      match raiseForStatus status reason (c.base_url ++ "api/v1/tools/" ++ tool_name ++ "/invoke") with
      | some m => Except.error m
      | none => body)⟩

/-- The condition of app.py line 41,
`result and isinstance(result, dict) and "output" in result and "branches" in result["output"]`,
evaluated left to right; only the last conjunct can raise. -/
def condEval (result : Json) : Except String Bool :=
  if pyTruthy result then
    match result with
    | Json.obj fields =>
      match fields.lookup "output" with
      | some o => pyContains o "branches"
      | none => Except.ok false
    | _ => Except.ok false
  else Except.ok false

/-- The body of the `try` in `list_branches` after the call returned
`result` (app.py lines 41–47): the branch dispatch and the strings each
branch returns; `.error` is an exception escaping to the `except` clause. -/
def listBranchesBody (result : Json) : Except String String :=
  match condEval result with
  | Except.error e => Except.error e
  | Except.ok true =>
    match pyIndexStr result "output" with
    | Except.error e => Except.error e
    | Except.ok o =>
      match pyIndexStr o "branches" with
      | Except.error e => Except.error e
      | Except.ok br =>
        match pyIterNames br with
        | Except.error e => Except.error e
        | Except.ok names =>
          Except.ok ("Successfully listed branches: " ++ dumps (jarr names) 0)
  | Except.ok false =>
    if pyTruthy result then
      Except.ok ("MCP server response for list_branches: " ++ dumps result 0)
    else
      Except.ok "No branches found or unexpected response format."

/-- `list_branches` (app.py lines 36–49): builds the payload, calls
`_call_mcp_tool`, post-processes the result, and converts any exception
`e` into the string `"Failed to list branches: " ++ e`.  Total: every
response shape yields a returned string, never a propagated exception. -/
def McpServerClient.list_branches (c : McpServerClient) (owner repo : String)
    (resp : HttpResponse) : CallEffects String :=
  ⟨(c.call_mcp_tool "repositories.list_branches"
      (jobj [("owner", Json.str owner), ("repo", Json.str repo)]) resp).requests,
   (c.call_mcp_tool "repositories.list_branches"
      (jobj [("owner", Json.str owner), ("repo", Json.str repo)]) resp).displayed,
   match (c.call_mcp_tool "repositories.list_branches"
      (jobj [("owner", Json.str owner), ("repo", Json.str repo)]) resp).value with
   | Except.error e => "Failed to list branches: " ++ e
   | Except.ok result =>
     match listBranchesBody result with
     | Except.ok s => s
     | Except.error e => "Failed to list branches: " ++ e⟩

/-- The error shown when `GOOGLE_API_KEY` is absent (app.py line 73). -/
def googleMissingMsg : String :=
  "Google API key not found in Streamlit secrets. Please add it to use the LLM."

/-- The error shown when `GITHUB_PAT` is absent (app.py line 75). -/
def githubMissingMsg : String :=
  "GitHub Personal Access Token (PAT) not found in Streamlit secrets. Please add it to interact with GitHub MCP."

/-- How the script-level `if`/`elif`/`else` on app.py lines 72–76 leaves
the app: halted at an error message, or running with both secrets. -/
inductive StartupOutcome where
  | halted (errorMsg : String)
  | running (google_api_key github_pat : String)

/-- The secrets check (app.py lines 72–76) over the configured secrets
store: the LLM, tools and UI are built only in the final `else`. -/
def appStartup (secrets : List (String × String)) : StartupOutcome :=
  match secrets.lookup "GOOGLE_API_KEY" with
  | none => StartupOutcome.halted googleMissingMsg
  | some g =>
    match secrets.lookup "GITHUB_PAT" with
    | none => StartupOutcome.halted githubMissingMsg
    | some p => StartupOutcome.running g p

/-- The HTTP requests a user turn can cause: tool calls exist only in the
running state (the `github_list_branches` tool, app.py lines 53–62, built
inside the `else` branch); a halted app issues none. -/
def runTurn (o : StartupOutcome) (owner repo : String) (resp : HttpResponse) : List Request :=
  match o with
  | StartupOutcome.halted _ => []
  | StartupOutcome.running _ pat =>
    ((McpServerClient.mk pat).list_branches owner repo resp).requests

/-- Two sequential `list_branches` invocations with the same payload:
the requests both issue (in order) and the two returned strings.  The
client object carries no mutable state, so the second call is built from
the same `c`. -/
def callListBranchesTwice (c : McpServerClient) (owner repo : String)
    (resp1 resp2 : HttpResponse) : List Request × String × String :=
  ((c.list_branches owner repo resp1).requests ++ (c.list_branches owner repo resp2).requests,
   (c.list_branches owner repo resp1).value,
   (c.list_branches owner repo resp2).value)

/-- Whether `s` begins with `p` (on the underlying character lists). -/
def strBegins (s p : String) : Bool := p.toList.isPrefixOf s.toList

/-! ### Helper lemmas -/

theorem raiseForStatus_none (status : Nat) (reason url : String) (h : status < 400) :
    raiseForStatus status reason url = none := by
  unfold raiseForStatus
  split_ifs with h1 h2
  · omega
  · omega
  · rfl

theorem raiseForStatus_client (status : Nat) (reason url : String)
    (h4 : 400 ≤ status) (h5 : status < 500) :
    raiseForStatus status reason url
      = some (toString status ++ (" Client Error: " ++ (reason ++ (" for url: " ++ url)))) := by
  unfold raiseForStatus
  rw [if_pos ⟨h4, h5⟩]
  simp [String.append_assoc]

theorem raiseForStatus_server (status : Nat) (reason url : String)
    (h5 : 500 ≤ status) (h6 : status < 600) :
    raiseForStatus status reason url
      = some (toString status ++ (" Server Error: " ++ (reason ++ (" for url: " ++ url)))) := by
  unfold raiseForStatus
  rw [if_neg (by omega : ¬(400 ≤ status ∧ status < 500)), if_pos ⟨h5, h6⟩]
  simp [String.append_assoc]

/-- On a sub-400 status with a parsed body, `list_branches` returns the
post-processing of the body. -/
theorem list_branches_value_ok (c : McpServerClient) (owner repo : String)
    (status : Nat) (reason text : String) (j : Json) (hst : status < 400) :
    (c.list_branches owner repo (HttpResponse.reply status reason text (Except.ok j))).value
      = (match listBranchesBody j with
         | Except.ok s => s
         | Except.error e => "Failed to list branches: " ++ e) := by
  simp only [McpServerClient.list_branches, McpServerClient.call_mcp_tool]
  rw [raiseForStatus_none _ _ _ hst]

/-- On a 4xx/5xx status, `list_branches` returns `"Failed to list
branches: "` followed by the `HTTPError` text. -/
theorem list_branches_value_raise (c : McpServerClient) (owner repo : String)
    (status : Nat) (reason text : String) (body : Except String Json) (m : String)
    (h : raiseForStatus status reason
          (REMOTE_MCP_SERVER_URL ++ "api/v1/tools/" ++ "repositories.list_branches" ++ "/invoke")
        = some m) :
    (c.list_branches owner repo (HttpResponse.reply status reason text body)).value
      = "Failed to list branches: " ++ m := by
  simp only [McpServerClient.list_branches, McpServerClient.call_mcp_tool,
    McpServerClient.base_url]
  rw [h]

/-! ### Claims -/

/-- C2: every tool invocation issues exactly one HTTP POST to
`base_url ++ "api/v1/tools/" ++ tool_name ++ "/invoke"`, with
`Authorization: Bearer <token>`, `Content-Type` and `Accept` set to
`application/json`, and the JSON body equal to the payload; for
`list_branches(owner, repo)` the payload is exactly
`{"owner": owner, "repo": repo}`. -/
theorem call_mcp_tool_single_post (pat tool_name owner repo : String) (payload : Json)
    (resp : HttpResponse) :
    ((McpServerClient.mk pat).call_mcp_tool tool_name payload resp).requests
      = [⟨"POST", REMOTE_MCP_SERVER_URL ++ "api/v1/tools/" ++ tool_name ++ "/invoke",
          [("Authorization", "Bearer " ++ pat),
           ("Content-Type", "application/json"),
           ("Accept", "application/json")], payload⟩]
    ∧ ((McpServerClient.mk pat).list_branches owner repo resp).requests
      = [⟨"POST", REMOTE_MCP_SERVER_URL ++ "api/v1/tools/" ++ "repositories.list_branches" ++ "/invoke",
          [("Authorization", "Bearer " ++ pat),
           ("Content-Type", "application/json"),
           ("Accept", "application/json")],
          jobj [("owner", Json.str owner), ("repo", Json.str repo)]⟩] :=
  ⟨rfl, rfl⟩

/-- C7: the adapter's displayed/logged messages and its returned string
are invariant under a change of the GitHub token (so the adapter never
embeds the credential in any text it produces; any occurrence could only
come from the inputs themselves), and the credential appears exactly as
the bearer value of the `Authorization` header of the one outbound
request.  The LLM API key is not an input of the adapter at all. -/
theorem credentials_not_in_messages (pat pat2 owner repo : String) (resp : HttpResponse) :
    ((McpServerClient.mk pat).list_branches owner repo resp).displayed
        = ((McpServerClient.mk pat2).list_branches owner repo resp).displayed
    ∧ ((McpServerClient.mk pat).list_branches owner repo resp).value
        = ((McpServerClient.mk pat2).list_branches owner repo resp).value
    ∧ ((McpServerClient.mk pat).list_branches owner repo resp).requests.map
          (fun r => r.headers.lookup "Authorization")
        = [some ("Bearer " ++ pat)] :=
  ⟨rfl, rfl, rfl⟩

/-- C8: two `list_branches` calls with identical payload produce two
independent requests (one per invocation, no caching), and identical
responses yield identical returned strings. -/
theorem list_branches_no_caching (c : McpServerClient) (owner repo : String)
    (resp1 resp2 : HttpResponse) (hsame : resp1 = resp2) :
    (callListBranchesTwice c owner repo resp1 resp2).1.length = 2
    ∧ (∃ req, (callListBranchesTwice c owner repo resp1 resp2).1 = [req, req])
    ∧ (callListBranchesTwice c owner repo resp1 resp2).2.1
        = (callListBranchesTwice c owner repo resp1 resp2).2.2 := by
  subst hsame
  exact ⟨rfl, ⟨_, rfl⟩, rfl⟩

/-- Witness for C8 at a concrete client, payload and response. -/
theorem list_branches_no_caching_witness :
    (callListBranchesTwice ⟨"tok"⟩ "octocat" "Spoon-Knife"
        (HttpResponse.transport "timed out") (HttpResponse.transport "timed out")).1.length = 2
    ∧ (∃ req, (callListBranchesTwice ⟨"tok"⟩ "octocat" "Spoon-Knife"
        (HttpResponse.transport "timed out") (HttpResponse.transport "timed out")).1 = [req, req])
    ∧ (callListBranchesTwice ⟨"tok"⟩ "octocat" "Spoon-Knife"
        (HttpResponse.transport "timed out") (HttpResponse.transport "timed out")).2.1
        = (callListBranchesTwice ⟨"tok"⟩ "octocat" "Spoon-Knife"
        (HttpResponse.transport "timed out") (HttpResponse.transport "timed out")).2.2 :=
  list_branches_no_caching ⟨"tok"⟩ "octocat" "Spoon-Knife" _ _ rfl

/-- C4: a transport-level failure (connection refused, timeout), and
likewise a malformed/unparseable body of an otherwise successful
response, make `list_branches` return — as data, not as an exception —
an error string containing the underlying cause. -/
theorem list_branches_transport_failure (c : McpServerClient) (owner repo cause cause2 : String)
    (status : Nat) (reason text : String) (hst : status < 400) :
    (c.list_branches owner repo (HttpResponse.transport cause)).value
        = "Failed to list branches: " ++ cause
    ∧ (c.list_branches owner repo
          (HttpResponse.reply status reason text (Except.error cause2))).value
        = "Failed to list branches: " ++ cause2 := by
  refine ⟨rfl, ?_⟩
  simp only [McpServerClient.list_branches, McpServerClient.call_mcp_tool]
  rw [raiseForStatus_none _ _ _ hst]

/-- Witness for C4 at a concrete timeout cause and a concrete malformed
200 response. -/
theorem list_branches_transport_failure_witness :
    ((McpServerClient.mk "tok").list_branches "octocat" "Spoon-Knife"
        (HttpResponse.transport "Read timed out.")).value
      = "Failed to list branches: " ++ "Read timed out."
    ∧ ((McpServerClient.mk "tok").list_branches "octocat" "Spoon-Knife"
        (HttpResponse.reply 200 "OK" "not json" (Except.error "Expecting value: line 1 column 1 (char 0)"))).value
      = "Failed to list branches: " ++ "Expecting value: line 1 column 1 (char 0)" :=
  list_branches_transport_failure (McpServerClient.mk "tok") "octocat" "Spoon-Knife"
    "Read timed out." "Expecting value: line 1 column 1 (char 0)" 200 "OK" "not json" (by decide)

/-- C3: every 4xx/5xx response makes `list_branches` return (not raise)
an error string containing the status code. -/
theorem list_branches_http_error_status (c : McpServerClient) (owner repo : String)
    (status : Nat) (reason text : String) (body : Except String Json)
    (h4 : 400 ≤ status) (h6 : status < 600) :
    ∃ pre post,
      (c.list_branches owner repo (HttpResponse.reply status reason text body)).value
        = pre ++ (toString status ++ post) := by
  by_cases h5 : status < 500
  · exact ⟨"Failed to list branches: ",
      " Client Error: " ++ (reason ++ (" for url: " ++
        (REMOTE_MCP_SERVER_URL ++ "api/v1/tools/" ++ "repositories.list_branches" ++ "/invoke"))),
      list_branches_value_raise c owner repo status reason text body _
        (raiseForStatus_client status reason _ h4 h5)⟩
  · exact ⟨"Failed to list branches: ",
      " Server Error: " ++ (reason ++ (" for url: " ++
        (REMOTE_MCP_SERVER_URL ++ "api/v1/tools/" ++ "repositories.list_branches" ++ "/invoke"))),
      list_branches_value_raise c owner repo status reason text body _
        (raiseForStatus_server status reason _ (by omega) h6)⟩

/-- Witness for C3 at a concrete 404, including the exact returned
string. -/
theorem list_branches_http_error_status_witness :
    (∃ pre post,
      ((McpServerClient.mk "tok").list_branches "octocat" "Spoon-Knife"
          (HttpResponse.reply 404 "Not Found" "nf" (Except.error "x"))).value
        = pre ++ (toString 404 ++ post))
    ∧ ((McpServerClient.mk "tok").list_branches "octocat" "Spoon-Knife"
          (HttpResponse.reply 404 "Not Found" "nf" (Except.error "x"))).value
        = "Failed to list branches: 404 Client Error: Not Found for url: https://api.githubcopilot.com/mcp/api/v1/tools/repositories.list_branches/invoke" :=
  ⟨list_branches_http_error_status (McpServerClient.mk "tok") "octocat" "Spoon-Knife"
      404 "Not Found" "nf" (Except.error "x") (by decide) (by decide),
    by decide⟩

/-- C10: a successful response whose parsed body is falsy (`\x7b\x7d`,
`null`, `[]`, ...) yields the fixed fallback string. -/
theorem list_branches_falsy_body (c : McpServerClient) (owner repo : String)
    (status : Nat) (reason text : String) (body : Json)
    (hst : status < 400) (hfalsy : pyTruthy body = false) :
    (c.list_branches owner repo (HttpResponse.reply status reason text (Except.ok body))).value
      = "No branches found or unexpected response format." := by
  rw [list_branches_value_ok c owner repo status reason text body hst]
  have hbody : listBranchesBody body
      = Except.ok "No branches found or unexpected response format." := by
    unfold listBranchesBody condEval
    rw [hfalsy]
    simp
  rw [hbody]

/-- Witness for C10 at the empty-object body. -/
theorem list_branches_falsy_body_witness :
    ((McpServerClient.mk "tok").list_branches "octocat" "Spoon-Knife"
        (HttpResponse.reply 200 "OK" "" (Except.ok (Json.obj JObj.nil)))).value
      = "No branches found or unexpected response format." :=
  list_branches_falsy_body (McpServerClient.mk "tok") "octocat" "Spoon-Knife"
    200 "OK" "" (Json.obj JObj.nil) (by decide) (by decide)

/-- The comprehension of line 42 succeeds on a list of objects each
bearing a `"name"` field and extracts exactly the names, in order. -/
theorem mapNames_named (l : List Json) (h : l.all isNamedObj = true) :
    mapNames l = Except.ok (namesOf l) := by
  induction l with
  | nil => rfl
  | cons b bs ih =>
    rw [List.all_cons, Bool.and_eq_true] at h
    obtain ⟨hb, hbs⟩ := h
    cases b
    case obj bf =>
      obtain ⟨v, hv⟩ := Option.isSome_iff_exists.mp (by simpa [isNamedObj] using hb)
      simp [mapNames, pyIndexStr, hv, ih hbs, namesOf, nameOf]
    all_goals simp [isNamedObj] at hb

/-- `b["name"]` raises on any entry that is not a dict bearing `"name"`. -/
theorem pyIndexStr_name_fails (b : Json) (hb : isNamedObj b = false) :
    ∃ e, pyIndexStr b "name" = Except.error e := by
  cases b
  case obj bf =>
    cases hl : bf.lookup "name" with
    | some v => simp [isNamedObj, hl] at hb
    | none => exact ⟨pyQuoted "name", by simp [pyIndexStr, hl]⟩
  all_goals exact ⟨_, rfl⟩

/-- The comprehension of line 42 raises as soon as the iterates are not
all dicts bearing `"name"`. -/
theorem mapNames_bad (l : List Json) (h : l.all isNamedObj = false) :
    ∃ e, mapNames l = Except.error e := by
  induction l with
  | nil => simp at h
  | cons b bs ih =>
    rw [List.all_cons] at h
    cases hb : isNamedObj b with
    | false =>
      obtain ⟨e, he⟩ := pyIndexStr_name_fails b hb
      exact ⟨e, by unfold mapNames; rw [he]⟩
    | true =>
      rw [hb, Bool.true_and] at h
      obtain ⟨e, he⟩ := ih h
      cases b
      case obj bf =>
        obtain ⟨v, hv⟩ := Option.isSome_iff_exists.mp (by simpa [isNamedObj] using hb)
        exact ⟨e, by simp [mapNames, pyIndexStr, hv, he]⟩
      all_goals simp [isNamedObj] at hb

/-- Iterating a `branches` value that is neither a conforming sequence
nor emptily iterable (the empty dict or the empty string) raises. -/
theorem pyIterNames_fails (bv : Json) (hbad : isNamedSeq bv = false)
    (hne1 : bv ≠ Json.obj JObj.nil) (hne2 : bv ≠ Json.str "") :
    ∃ e, pyIterNames bv = Except.error e := by
  cases bv
  case null => exact ⟨_, rfl⟩
  case bool b => exact ⟨_, rfl⟩
  case num n => exact ⟨_, rfl⟩
  case str s =>
    cases s with
    | mk data =>
      cases data with
      | nil => exact absurd rfl hne2
      | cons ch rest => exact ⟨_, rfl⟩
  case arr xs =>
    obtain ⟨e, he⟩ := mapNames_bad (JList.toList xs) (by simpa [isNamedSeq] using hbad)
    exact ⟨e, by simp [pyIterNames, he]⟩
  case obj fs =>
    cases fs with
    | nil => exact absurd rfl hne1
    | cons k v rest => exact ⟨_, rfl⟩

/-- The line-41 condition holds whenever the body is a dict whose
`"output"` entry is a dict bearing `"branches"`. -/
theorem condEval_true (fields ofields : JObj)
    (hout : fields.lookup "output" = some (Json.obj ofields))
    (hbr : (ofields.lookup "branches").isSome = true) :
    condEval (Json.obj fields) = Except.ok true := by
  have hfe : fields.isEmpty = false := by
    cases fields with
    | nil => simp [JObj.lookup, JObj.toList] at hout
    | cons k v rest => rfl
  unfold condEval
  simp [pyTruthy, hfe, hout, pyContains, hbr]

/-- C1: a successful response whose body is a non-empty mapping with an
`output` mapping carrying a `branches` sequence of objects each bearing
a `name` field makes `list_branches` return the success message listing
exactly those names, in response order. -/
theorem list_branches_lists_names (c : McpServerClient) (owner repo : String)
    (status : Nat) (reason text : String) (fields ofields : JObj) (bs : JList)
    (hst : status < 400)
    (hout : fields.lookup "output" = some (Json.obj ofields))
    (hbr : ofields.lookup "branches" = some (Json.arr bs))
    (hnamed : (JList.toList bs).all isNamedObj = true) :
    (c.list_branches owner repo
        (HttpResponse.reply status reason text (Except.ok (Json.obj fields)))).value
      = "Successfully listed branches: " ++ dumps (jarr (namesOf (JList.toList bs))) 0 := by
  rw [list_branches_value_ok c owner repo status reason text _ hst]
  have hbody : listBranchesBody (Json.obj fields)
      = Except.ok ("Successfully listed branches: " ++ dumps (jarr (namesOf (JList.toList bs))) 0) := by
    unfold listBranchesBody
    rw [condEval_true fields ofields hout (by rw [hbr]; rfl)]
    simp [pyIndexStr, hout, hbr, pyIterNames, mapNames_named _ hnamed]
  rw [hbody]

/-- Witness for C1 at the spec's concrete response
`\x7b"output": \x7b"branches": [\x7b"name": "main"\x7d, \x7b"name": "dev"\x7d]\x7d\x7d`:
the returned message renders exactly `["main", "dev"]` in order. -/
theorem list_branches_lists_names_witness :
    ((McpServerClient.mk "tok").list_branches "octocat" "Spoon-Knife"
        (HttpResponse.reply 200 "OK" ""
          (Except.ok (Json.obj (JObj.cons "output"
            (Json.obj (JObj.cons "branches"
              (Json.arr (JList.cons (Json.obj (JObj.cons "name" (Json.str "main") JObj.nil))
                (JList.cons (Json.obj (JObj.cons "name" (Json.str "dev") JObj.nil))
                  JList.nil)))
              JObj.nil))
            JObj.nil))))).value
      = "Successfully listed branches: [\n  \"main\",\n  \"dev\"\n]" := by
  have h := list_branches_lists_names (McpServerClient.mk "tok") "octocat" "Spoon-Knife"
    200 "OK" ""
    (JObj.cons "output"
      (Json.obj (JObj.cons "branches"
        (Json.arr (JList.cons (Json.obj (JObj.cons "name" (Json.str "main") JObj.nil))
          (JList.cons (Json.obj (JObj.cons "name" (Json.str "dev") JObj.nil))
            JList.nil)))
        JObj.nil))
      JObj.nil)
    (JObj.cons "branches"
      (Json.arr (JList.cons (Json.obj (JObj.cons "name" (Json.str "main") JObj.nil))
        (JList.cons (Json.obj (JObj.cons "name" (Json.str "dev") JObj.nil))
          JList.nil)))
      JObj.nil)
    (JList.cons (Json.obj (JObj.cons "name" (Json.str "main") JObj.nil))
      (JList.cons (Json.obj (JObj.cons "name" (Json.str "dev") JObj.nil))
        JList.nil))
    (by decide) rfl rfl (by decide)
  exact h.trans (by decide)

/-- The claim-shaped side condition for the raw-JSON echo: the body,
when it is a mapping with an `output` entry, has a well-defined and
negative `"branches"` membership test on that entry. -/
def noBranchesIn (result : Json) : Bool :=
  match result with
  | Json.obj fields =>
    match fields.lookup "output" with
    | some o =>
      match pyContains o "branches" with
      | Except.ok false => true
      | _ => false
    | none => true
  | _ => true

/-- C5 counterexample: the claim fails as stated.  For the empty-object
body (which contains no `output.branches`) the code returns the fixed
fallback string, not the raw-JSON echo; and for the body
`\x7b"output": 5\x7d` (no `branches` key anywhere) the membership test
`"branches" in result["output"]` raises `TypeError`, so the code returns
an error string, again not the echo. -/
theorem list_branches_raw_echo_cex :
    (((McpServerClient.mk "tok").list_branches "octocat" "Spoon-Knife"
        (HttpResponse.reply 200 "OK" "" (Except.ok (Json.obj JObj.nil)))).value
      = "No branches found or unexpected response format.")
    ∧ (((McpServerClient.mk "tok").list_branches "octocat" "Spoon-Knife"
        (HttpResponse.reply 200 "OK" "" (Except.ok (Json.obj JObj.nil)))).value
      ≠ "MCP server response for list_branches: " ++ dumps (Json.obj JObj.nil) 0)
    ∧ (((McpServerClient.mk "tok").list_branches "octocat" "Spoon-Knife"
        (HttpResponse.reply 200 "OK" ""
          (Except.ok (Json.obj (JObj.cons "output" (Json.num 5) JObj.nil))))).value
      = "Failed to list branches: " ++ ("argument of type " ++ pyQuoted "int" ++ " is not iterable"))
    ∧ (((McpServerClient.mk "tok").list_branches "octocat" "Spoon-Knife"
        (HttpResponse.reply 200 "OK" ""
          (Except.ok (Json.obj (JObj.cons "output" (Json.num 5) JObj.nil))))).value
      ≠ "MCP server response for list_branches: "
          ++ dumps (Json.obj (JObj.cons "output" (Json.num 5) JObj.nil)) 0) :=
  ⟨by decide, by decide, by decide, by decide⟩

/-- C5 (amended): a successful response whose parsed body is truthy and
— when it is a mapping with an `output` entry — has a well-defined,
negative `"branches"` membership test on that entry, is echoed back as
raw JSON. -/
theorem list_branches_raw_echo (c : McpServerClient) (owner repo : String)
    (status : Nat) (reason text : String) (result : Json)
    (hst : status < 400) (htr : pyTruthy result = true) (hnb : noBranchesIn result = true) :
    (c.list_branches owner repo (HttpResponse.reply status reason text (Except.ok result))).value
      = "MCP server response for list_branches: " ++ dumps result 0 := by
  rw [list_branches_value_ok c owner repo status reason text result hst]
  have hcond : condEval result = Except.ok false := by
    unfold condEval
    rw [htr]
    cases result
    case obj fields =>
      unfold noBranchesIn at hnb
      cases hl : fields.lookup "output" with
      | none => simp [hl]
      | some o =>
        cases hc : pyContains o "branches" with
        | error e => simp [hl, hc] at hnb
        | ok b =>
          cases b with
          | false => simp [hl, hc]
          | true => simp [hl, hc] at hnb
    all_goals simp
  have hbody : listBranchesBody result
      = Except.ok ("MCP server response for list_branches: " ++ dumps result 0) := by
    unfold listBranchesBody
    rw [hcond, htr]
    simp
  rw [hbody]

/-- Witness for C5 (amended) at the body `\x7b"message": "hi"\x7d`. -/
theorem list_branches_raw_echo_witness :
    ((McpServerClient.mk "tok").list_branches "octocat" "Spoon-Knife"
        (HttpResponse.reply 200 "OK" ""
          (Except.ok (Json.obj (JObj.cons "message" (Json.str "hi") JObj.nil))))).value
      = "MCP server response for list_branches: "
          ++ dumps (Json.obj (JObj.cons "message" (Json.str "hi") JObj.nil)) 0 :=
  list_branches_raw_echo (McpServerClient.mk "tok") "octocat" "Spoon-Knife" 200 "OK" ""
    (Json.obj (JObj.cons "message" (Json.str "hi") JObj.nil))
    (by decide) (by decide) (by decide)

/-- C9 counterexample: the claim fails as stated.  For the body
`\x7b"output": \x7b"branches": \x7b\x7d\x7d\x7d` the `branches` value is
not a sequence of objects bearing `name`, yet the comprehension iterates
the empty dict and returns the success message `[]`; and for the body
`\x7b"output": [1, 2]\x7d` (`output` not a mapping) the membership test
is `False`, so the raw JSON is echoed.  The empty string behaves like
the empty dict (iterates emptily, success message `[]`).  None of these
returns a string beginning `"Failed to list branches:"`. -/
theorem list_branches_malformed_branches_cex :
    (isNamedSeq (Json.obj JObj.nil) = false)
    ∧ (((McpServerClient.mk "tok").list_branches "octocat" "Spoon-Knife"
        (HttpResponse.reply 200 "OK" ""
          (Except.ok (Json.obj (JObj.cons "output"
            (Json.obj (JObj.cons "branches" (Json.obj JObj.nil) JObj.nil)) JObj.nil))))).value
      = "Successfully listed branches: []")
    ∧ (strBegins ((McpServerClient.mk "tok").list_branches "octocat" "Spoon-Knife"
        (HttpResponse.reply 200 "OK" ""
          (Except.ok (Json.obj (JObj.cons "output"
            (Json.obj (JObj.cons "branches" (Json.obj JObj.nil) JObj.nil)) JObj.nil))))).value
        "Failed to list branches:" = false)
    ∧ (((McpServerClient.mk "tok").list_branches "octocat" "Spoon-Knife"
        (HttpResponse.reply 200 "OK" ""
          (Except.ok (Json.obj (JObj.cons "output"
            (Json.arr (JList.cons (Json.num 1) (JList.cons (Json.num 2) JList.nil)))
            JObj.nil))))).value
      = "MCP server response for list_branches: "
          ++ dumps (Json.obj (JObj.cons "output"
              (Json.arr (JList.cons (Json.num 1) (JList.cons (Json.num 2) JList.nil)))
              JObj.nil)) 0)
    ∧ (strBegins ((McpServerClient.mk "tok").list_branches "octocat" "Spoon-Knife"
        (HttpResponse.reply 200 "OK" ""
          (Except.ok (Json.obj (JObj.cons "output"
            (Json.arr (JList.cons (Json.num 1) (JList.cons (Json.num 2) JList.nil)))
            JObj.nil))))).value
        "Failed to list branches:" = false)
    ∧ (isNamedSeq (Json.str "") = false)
    ∧ (((McpServerClient.mk "tok").list_branches "octocat" "Spoon-Knife"
        (HttpResponse.reply 200 "OK" ""
          (Except.ok (Json.obj (JObj.cons "output"
            (Json.obj (JObj.cons "branches" (Json.str "") JObj.nil)) JObj.nil))))).value
      = "Successfully listed branches: []") :=
  ⟨by decide, by decide, by decide, by decide, by decide, by decide, by decide⟩

/-- C9 (amended): if the body is a mapping whose `output` entry is a
mapping carrying a `branches` value that is neither a sequence of
objects each bearing `name` nor emptily iterable (the empty dict or the
empty string), the extraction failure is caught and the call returns an
error string beginning `"Failed to list branches:"`; moreover
`list_branches` returns a string on every response. -/
theorem list_branches_malformed_branches (c : McpServerClient) (owner repo : String)
    (status : Nat) (reason text : String) (fields ofields : JObj) (bv : Json)
    (hst : status < 400)
    (hout : fields.lookup "output" = some (Json.obj ofields))
    (hbr : ofields.lookup "branches" = some bv)
    (hbad : isNamedSeq bv = false)
    (hne1 : bv ≠ Json.obj JObj.nil)
    (hne2 : bv ≠ Json.str "") :
    (∃ e, (c.list_branches owner repo
        (HttpResponse.reply status reason text (Except.ok (Json.obj fields)))).value
      = "Failed to list branches: " ++ e)
    ∧ (∀ r, ∃ s, (c.list_branches owner repo r).value = s) := by
  constructor
  · rw [list_branches_value_ok c owner repo status reason text _ hst]
    obtain ⟨e, he⟩ := pyIterNames_fails bv hbad hne1 hne2
    have hbody : listBranchesBody (Json.obj fields) = Except.error e := by
      unfold listBranchesBody
      rw [condEval_true fields ofields hout (by rw [hbr]; rfl)]
      simp [pyIndexStr, hout, hbr, he]
    rw [hbody]
    exact ⟨e, rfl⟩
  · exact fun r => ⟨_, rfl⟩

/-- Witness for C9 (amended) at the body
`\x7b"output": \x7b"branches": 5\x7d\x7d`. -/
theorem list_branches_malformed_branches_witness :
    (∃ e, ((McpServerClient.mk "tok").list_branches "octocat" "Spoon-Knife"
        (HttpResponse.reply 200 "OK" ""
          (Except.ok (Json.obj (JObj.cons "output"
            (Json.obj (JObj.cons "branches" (Json.num 5) JObj.nil)) JObj.nil))))).value
      = "Failed to list branches: " ++ e)
    ∧ (∀ r, ∃ s, ((McpServerClient.mk "tok").list_branches "octocat" "Spoon-Knife" r).value = s) :=
  list_branches_malformed_branches (McpServerClient.mk "tok") "octocat" "Spoon-Knife"
    200 "OK" ""
    (JObj.cons "output" (Json.obj (JObj.cons "branches" (Json.num 5) JObj.nil)) JObj.nil)
    (JObj.cons "branches" (Json.num 5) JObj.nil)
    (Json.num 5)
    (by decide) rfl rfl (by decide) (by intro h; cases h) (by intro h; cases h)

/-- C6: with either secret missing, startup halts at the error naming
the missing secret (the Google key is checked first), no user turn can
issue a request, and each message explicitly names its secret. -/
theorem startup_missing_secret_halts (secrets : List (String × String))
    (h : secrets.lookup "GOOGLE_API_KEY" = none ∨ secrets.lookup "GITHUB_PAT" = none) :
    appStartup secrets
      = StartupOutcome.halted
          (if (secrets.lookup "GOOGLE_API_KEY").isNone then googleMissingMsg
           else githubMissingMsg)
    ∧ (∀ owner repo resp, runTurn (appStartup secrets) owner repo resp = [])
    ∧ charsContain "Google API key".toList googleMissingMsg.toList = true
    ∧ charsContain "GitHub Personal Access Token".toList githubMissingMsg.toList = true := by
  have h1 : appStartup secrets
      = StartupOutcome.halted
          (if (secrets.lookup "GOOGLE_API_KEY").isNone then googleMissingMsg
           else githubMissingMsg) := by
    unfold appStartup
    cases hg : secrets.lookup "GOOGLE_API_KEY" with
    | none => simp
    | some g =>
      cases hp : secrets.lookup "GITHUB_PAT" with
      | none => simp
      | some p =>
        rcases h with h | h
        · rw [hg] at h; cases h
        · rw [hp] at h; cases h
  refine ⟨h1, ?_, by decide, by decide⟩
  intro owner repo resp
  rw [h1]
  rfl

/-- Witness for C6 at a secrets store missing the Google key. -/
theorem startup_missing_secret_halts_witness :
    appStartup [("GITHUB_PAT", "x")] = StartupOutcome.halted googleMissingMsg
    ∧ runTurn (appStartup [("GITHUB_PAT", "x")]) "octocat" "Spoon-Knife"
        (HttpResponse.transport "t") = [] := by
  have h := startup_missing_secret_halts [("GITHUB_PAT", "x")] (Or.inl rfl)
  exact ⟨h.1.trans rfl, h.2.1 "octocat" "Spoon-Knife" (HttpResponse.transport "t")⟩
